import Mathlib

/-!
Shallow embedding of `mantis_openioc_importer/importer.py` (class `OpenIOC_Import`).

Python dictionaries are modelled as association lists keyed by strings; a Python
dictionary assignment `d[k] = v` replaces the first binding of `k` (keeping its
position) or appends a fresh binding, which matches CPython's insertion-order
semantics.  Fallible dictionary lookups (`d[k]`, raising `KeyError`) are modelled
in the `Except String` monad.  External framework calls (dingos / django / the
Mantis importer) that the hooks delegate to are modelled by small definitions
whose doc comments say what they stand for.
-/

namespace OpenIOC

/-- Association-list lookup: Python `d[k]` / `d.get(k)` (first binding wins). -/
def allookup {α : Type} (d : List (String × α)) (k : String) : Option α :=
  match d with
  | [] => none
  | (k₁, v) :: rest => if k₁ = k then some v else allookup rest k

/-- Association-list update: Python `d[k] = v` (replace first binding of `k`,
else append). -/
def alset {α : Type} (d : List (String × α)) (k : String) (v : α) :
    List (String × α) :=
  match d with
  | [] => [(k, v)]
  | (k₁, v₁) :: rest =>
    if k₁ = k then (k, v) :: rest else (k₁, v₁) :: alset rest k v

/-- A value inside a `DingoObjDict`: either a string or a nested dictionary. -/
inductive DVal where
  | str : String → DVal
  | dict : List (String × DVal) → DVal

/-- A `DingoObjDict` is a string-keyed dictionary of `DVal` values. -/
abbrev DDict := List (String × DVal)

/-- Modelled from the external dingos utility `set_dict(d, value, 'set', *path)`
(imported from `dingos.core.utilities`, not part of this repository): walks the
path, creating intermediate dictionaries where a segment is absent or bound to a
non-dictionary, and sets `value` at the final segment. -/
def set_dict (d : DDict) (value : DVal) : List String → DDict
  | [] => d
  | [k] => alset d k value
  | k :: rest =>
    let sub : DDict :=
      match allookup d k with
      | some (DVal.dict s) => s
      | _ => []
    alset d k (DVal.dict (set_dict sub value rest))

/-- Helper for `splitChar`: walks the character list, cutting a segment at each
separator; `acc` is the segment being accumulated. -/
def splitCharAux (sep : Char) : List Char → List Char → List String
  | [], acc => [⟨acc⟩]
  | c :: rest, acc =>
    if c = sep then ⟨acc⟩ :: splitCharAux sep rest []
    else splitCharAux sep rest (acc ++ [c])

/-- Python `s.split(sep)` for a one-character separator: split at every
occurrence; adjacent separators give empty segments and the result is never
empty (`"".split("/") == [""]`). -/
def splitChar (sep : Char) (s : String) : List String :=
  splitCharAux sep s.data []

/-- `OpenIOC_Import.transformer` (importer.py lines 161-242): rewrites an
`IndicatorItem` element into a nested path-keyed dictionary; every other element
passes through unchanged.  Each `match` below is one fallible Python step, in
source order: `contents['Context']['@search']` (KeyError on a missing key,
TypeError when subscripting a non-dictionary), the tuple unpacking of
`.split("/", 1)` (ValueError when the string holds no `/`; for a string with a
`/`, `s.split("/", 1)[1].split("/")` equals `s.split("/")[1:]`, so document
type and segment list come from one full split), then
`contents['Content']['_value']`, `contents['Content']['@type']`,
`contents['@condition']` and `contents['@id']`. -/
def transformer (elt_name : String) (contents : DDict) :
    Except String (String × DDict) :=
  if elt_name ≠ "IndicatorItem" then
    Except.ok (elt_name, contents)
  else
    match allookup contents "Context" with
    | none => Except.error "KeyError: Context"
    | some (DVal.str _) => Except.error "TypeError: Context is not a dict"
    | some (DVal.dict contextD) =>
    match allookup contextD "@search" with
    | none => Except.error "KeyError: @search"
    | some (DVal.dict _) => Except.error "TypeError: @search is not a string"
    | some (DVal.str searchStr) =>
    match splitChar '/' searchStr with
    | [] => Except.error "ValueError: need more than 0 values to unpack"
    | [_] => Except.error "ValueError: need more than 1 value to unpack"
    | document_type :: search_term =>
    match allookup contents "Content" with
    | none => Except.error "KeyError: Content"
    | some (DVal.str _) => Except.error "TypeError: Content is not a dict"
    | some (DVal.dict contentD) =>
    match allookup contentD "_value" with
    | none => Except.error "KeyError: _value"
    | some search_value =>
    match allookup contentD "@type" with
    | none => Except.error "KeyError: @type"
    | some value_type =>
    match allookup contents "@condition" with
    | none => Except.error "KeyError: @condition"
    | some search_condition =>
    match allookup contents "@id" with
    | none => Except.error "KeyError: @id"
    | some item_id =>
      let leaf : DDict :=
        [("@value_type", value_type), ("@condition", search_condition),
         ("_value", search_value)]
      let result : DDict := [("@id", item_id)]
      Except.ok (document_type, set_dict result (DVal.dict leaf) search_term)

/-- Lookup along a nested path of keys (used only to state properties of the
transformed record). -/
def getPath (d : DDict) : List String → Option DVal
  | [] => some (DVal.dict d)
  | k :: rest =>
    match allookup d k, rest with
    | some v, [] => some v
    | some (DVal.dict sub), _ :: _ => getPath sub rest
    | _, _ => none

/-- An XML element as libxml2 hands it to the hooks: a tag name, an attribute
dictionary, and the list of child elements (`elt.children` is the first child,
`.next` walks the sibling chain, so a list models the chain). -/
inductive XmlNode where
  | mk : String → List (String × String) → List XmlNode → XmlNode

/-- Tag name of an element. -/
def XmlNode.name : XmlNode → String
  | XmlNode.mk n _ _ => n

/-- Attribute dictionary of an element. -/
def XmlNode.attributes : XmlNode → List (String × String)
  | XmlNode.mk _ a _ => a

/-- Child elements of an element, in document order. -/
def XmlNode.children : XmlNode → List XmlNode
  | XmlNode.mk _ _ c => c

/-- Modelled from the external dingos utility
`extract_attributes(elt, prefix_key_char=tag)` (from `dingos.core.xml_utils`,
not part of this repository): returns the element's attribute dictionary with
every key preceded by the given marker character (`'@'` or `''`). -/
def extract_attributes (tag : String) (elt : XmlNode) : List (String × String) :=
  elt.attributes.map (fun kv => (tag ++ kv.1, kv.2))

/-- Result type of the embedding predicate: Python `False`, `True`, or a
type-name string. -/
inductive EmbPred where
  | noEmbed : EmbPred
  | yesEmbed : EmbPred
  | typed : String → EmbPred
deriving DecidableEq, Repr

/-- The `while grandchild is not None` loop of `cybox_embedding_pred`: scan the
children, stop at the first one named `Context`, and take its `document`
attribute if present (`type_info` stays `None` past the `break` otherwise). -/
def findContextTypeInfo : List XmlNode → Option String
  | [] => none
  | g :: rest =>
    if g.name = "Context" then allookup g.attributes "document"
    else findContextTypeInfo rest

/-- `OpenIOC_Import.cybox_embedding_pred` (importer.py lines 109-159).  Python
truthiness of `type_info` (a string or `None`) makes the empty string fall
through to `True`. -/
def cybox_embedding_pred (parent child : XmlNode)
    (ns_mapping : List (String × String)) : EmbPred :=
  let child_attributes := extract_attributes "" child
  if (allookup child_attributes "id").isSome && (child.name == "IndicatorItem") then
    match findContextTypeInfo child.children with
    | some s => if s ≠ "" then EmbPred.typed s else EmbPred.yesEmbed
    | none => EmbPred.yesEmbed
  else
    EmbPred.noEmbed

/-- A parsed datetime as django's `parse_datetime` produces it: an abstract
instant plus an optional timezone designator (`none` models a naive value). -/
structure PDatetime where
  instant : Nat
  tz : Option String
deriving DecidableEq, Repr

/-- django `timezone.is_aware`: a datetime is aware when it carries timezone
information. -/
def tz_is_aware (dt : PDatetime) : Bool := dt.tz.isSome

/-- django `timezone.make_aware(naive, timezone.utc)`: attach UTC. -/
def make_aware_utc (dt : PDatetime) : PDatetime := { dt with tz := some "UTC" }

/-- The `{'id': ..., 'timestamp': ...}` record returned by
`id_and_revision_extractor`. -/
structure IdRevResult where
  id : Option String
  timestamp : Option PDatetime
deriving DecidableEq, Repr

/-- `OpenIOC_Import.id_and_revision_extractor` (importer.py lines 70-106),
parameterised by the external `parse_datetime` (django) on the strings it is
given. -/
def id_and_revision_extractor (parse : String → PDatetime)
    (xml_elt : XmlNode) : IdRevResult :=
  let attributes := extract_attributes "@" xml_elt
  let id : Option String := allookup attributes "@id"
  let timestamp : Option PDatetime :=
    match allookup attributes "@last-modified" with
    | some s =>
      let naive := parse s
      some (if tz_is_aware naive then naive else make_aware_utc naive)
    | none => none
  { id := id, timestamp := timestamp }

/-- The fact dictionary handed to `attr_ignore_predicate`
(`{'node_id': ..., 'term': ..., 'attribute': ..., 'value': ...}`). -/
structure FactDict where
  node_id : String
  term : String
  attr : String
  value : String
deriving DecidableEq, Repr

/-- Python `c in s` for a one-character string `c`: substring containment,
i.e. membership of the character among the characters of `s`. -/
def containsChar (c : Char) (s : String) : Bool :=
  s.data.contains c

/-- `OpenIOC_Import.attr_ignore_predicate` (importer.py lines 378-403).  Python
`'@' in fact_dict['attribute']` is substring containment of the one-character
string `'@'`. -/
def attr_ignore_predicate (fact_dict : FactDict) : Bool :=
  if containsChar '@' fact_dict.attr then true
  else if fact_dict.attr ∈ ["idref", "id", "value_type"] then true
  else false

/-- The `FactDataType` kind constants of the external Mantis model that this
module mentions. -/
inductive FactDTKind where
  | NO_VOCAB : FactDTKind
  | VOCAB_SINGLE : FactDTKind
  | REFERENCE : FactDTKind
deriving DecidableEq, Repr

/-- A database `Identifier` row, keyed by uid and namespace URI (external
`mantis_core.models.Identifier`). -/
structure IdentifierRec where
  uid : String
  namespace_uri : String
deriving DecidableEq, Repr

/-- A value stored in the `add_fact_kargs` dictionary: a string, a
`FactDataType` kind constant, or an `Identifier` object. -/
inductive KVal where
  | s : String → KVal
  | kind : FactDTKind → KVal
  | ident : IdentifierRec → KVal
deriving DecidableEq, Repr

/-- The mutable `add_fact_kargs` dictionary. -/
abbrev Kargs := List (String × KVal)

/-- `OpenIOC_Import.datatype_extractor` (importer.py lines 405-476).  Mutation
of `add_fact_kargs` is modelled by returning the updated dictionary next to the
boolean result.  `namespace_mapping` is indexed only at `None` by the source,
so it is modelled as a function on `Option String`.  Python truthiness of
`embedded_type_info` (from `.get(..., None)`) treats both `None` and the empty
string as false. -/
def datatype_extractor (attr_info : List (String × String))
    (namespace_mapping : Option String → String)
    (add_fact_kargs : Kargs) : Kargs × Bool :=
  if (allookup attr_info "idref").isSome then
    match allookup attr_info "@embedded_type_info" with
    | some s =>
      if s ≠ "" then
        (alset (alset (alset add_fact_kargs
            "fact_dt_name" (KVal.s s))
            "fact_dt_namespace_uri" (KVal.s (namespace_mapping none)))
            "fact_dt_kind" (KVal.kind FactDTKind.REFERENCE), true)
      else (add_fact_kargs, true)
    | none => (add_fact_kargs, true)
  else
    match allookup attr_info "value_type" with
    | some vt =>
      (alset (alset add_fact_kargs
          "fact_dt_name" (KVal.s vt))
          "fact_dt_namespace_uri" (KVal.s (namespace_mapping none)), true)
    | none => (add_fact_kargs, false)

/-- `OpenIOC_Import.reference_handler` (importer.py lines 262-305),
parameterised by the instance state `self.identifier_ns_uri`.  The external
calls `MantisImporter.create_iobject(uid, ns, timestamp)` (retrieve the object
or create a placeholder) and `Identifier.objects.get(uid, namespace__uri)` are
modelled as producing the identifier row keyed by the uid and namespace the
source passes; they do not otherwise touch the returned kargs.  The dictionary
lookups `attr_info['idref']` and `attr_info['@timestamp']` raise `KeyError`
when absent. -/
def reference_handler (identifier_ns_uri : String)
    (attr_info : List (String × String))
    (add_fact_kargs : Kargs) : Except String (Kargs × Bool) := do
  let uid ← match allookup attr_info "idref" with
    | some v => Except.ok v
    | none => Except.error "KeyError: idref"
  let _timestamp ← match allookup attr_info "@timestamp" with
    | some v => Except.ok v
    | none => Except.error "KeyError: @timestamp"
  let value_iobject_id : IdentifierRec :=
    { uid := uid, namespace_uri := identifier_ns_uri }
  return (alset add_fact_kargs "value_iobject_id" (KVal.ident value_iobject_id),
          true)

/-- Modelled from the spec: the external dingos constant
`DINGOS_DEFAULT_ID_NAMESPACE_URI` (the DINGOS default identifier namespace that
`__init__` assigns to `self.identifier_ns_uri`); its exact URI text is
irrelevant to the claims, only that it is a fixed string. -/
def DINGOS_DEFAULT_ID_NAMESPACE_URI : String :=
  "https://github.com/siemens/django-dingos/blob/master/DEFAULT_ID_NAMESPACE"

/-- One entry of the result structure returned by the external
`MantisImporter.xml_import`: an id/revision record, an element name and a
dictionary representation. -/
structure ImportedObj where
  id_and_rev_info : IdRevResult
  elt_name : String
  dict_repr : DDict

/-- The full result of the external `MantisImporter.xml_import`: the top-level
element plus the embedded objects it discovered. -/
structure ImportResult where
  top : ImportedObj
  embedded_objects : List ImportedObj

/-- The arguments this module passes to `MantisImporter.create_iobject` in the
final loop of `xml_import` (the fields the claims are about; family and
marking arguments are constant across the loop and omitted). -/
structure CreateCall where
  iobject_type_name : String
  uid : Option String
  identifier_ns_uri : Option String
  timestamp : PDatetime
  create_timestamp : PDatetime
deriving DecidableEq, Repr

/-- What `OpenIOC_Import.xml_import` leaves behind: the sequence of
`create_iobject` calls of its final loop and the instance namespace state that
`reference_handler` consults. -/
structure XmlImportOutcome where
  calls : List CreateCall
  self_identifier_ns_uri : String
deriving DecidableEq, Repr

/-- `OpenIOC_Import.xml_import` (importer.py lines 479-587) after the external
importer returned `import_result`; `now` is the `timezone.now()` captured by
`self.__init__` as `self.create_timestamp`.  Faithful points: the loop variable
`id_and_rev_info` is reassigned while the pending stack is built, so the
timestamp test at line 562 sees the last embedded object's record when embedded
objects exist; and the creation calls pass the raw `identifier_ns_uri`
parameter (line 579), not `self.identifier_ns_uri`. -/
def xml_import (import_result : ImportResult)
    (identifier_ns_uri : Option String) (now : PDatetime) : XmlImportOutcome :=
  let self_id_ns : String :=
    match identifier_ns_uri with
    | some uri => if uri ≠ "" then uri else DINGOS_DEFAULT_ID_NAMESPACE_URI
    | none => DINGOS_DEFAULT_ID_NAMESPACE_URI
  let pending_stack : List ImportedObj :=
    import_result.top :: import_result.embedded_objects
  let final_info : IdRevResult :=
    match import_result.embedded_objects.getLast? with
    | some e => e.id_and_rev_info
    | none => import_result.top.id_and_rev_info
  let ts : PDatetime :=
    match final_info.timestamp with
    | some t => t
    | none => now
  let calls : List CreateCall :=
    pending_stack.map (fun obj =>
      { iobject_type_name := obj.elt_name
        uid := obj.id_and_rev_info.id
        identifier_ns_uri := identifier_ns_uri
        timestamp := ts
        create_timestamp := now })
  { calls := calls, self_identifier_ns_uri := self_id_ns }

/-- The later of two datetimes (used only to state the spec's "latest of the
extracted timestamp or now"). -/
def latest (a b : PDatetime) : PDatetime :=
  if b.instant ≤ a.instant then a else b

/-! ## Helper lemmas -/

theorem allookup_alset_self {α : Type} (d : List (String × α)) (k : String)
    (v : α) : allookup (alset d k v) k = some v := by
  induction d with
  | nil => simp [alset, allookup]
  | cons kv rest ih =>
    by_cases h : kv.1 = k
    · simp [alset, allookup, h]
    · simp [alset, allookup, h, ih]

theorem allookup_alset_ne {α : Type} (d : List (String × α)) (k k' : String)
    (v : α) (h : k' ≠ k) : allookup (alset d k v) k' = allookup d k' := by
  have hks : k ≠ k' := fun hh => h hh.symm
  induction d with
  | nil => simp [alset, allookup, hks]
  | cons kv rest ih =>
    by_cases h1 : kv.1 = k
    · simp [alset, allookup, h1, hks]
    · by_cases h2 : kv.1 = k'
      · simp [alset, allookup, h1, h2, h]
      · simp [alset, allookup, h1, h2, ih]

theorem string_append_left_cancel (p k k' : String) (h : p ++ k' = p ++ k) :
    k' = k := by
  have hd := congrArg String.data h
  simp only [String.data_append] at hd
  exact String.ext (List.append_cancel_left hd)

theorem allookup_extract_attributes (tag : String) (elt : XmlNode)
    (k : String) :
    allookup (extract_attributes tag elt) (tag ++ k) =
      allookup elt.attributes k := by
  unfold extract_attributes
  induction elt.attributes with
  | nil => simp [allookup]
  | cons kv rest ih =>
    by_cases h : kv.1 = k
    · simp [allookup, h]
    · have hne : tag ++ kv.1 ≠ tag ++ k :=
        fun hh => h (string_append_left_cancel tag k kv.1 hh)
      simp [allookup, h, hne, ih]

theorem extract_attributes_empty_tag (elt : XmlNode) :
    extract_attributes "" elt = elt.attributes := by
  unfold extract_attributes
  have h : ∀ kv : String × String, (("" ++ kv.1 : String), kv.2) = kv := by
    intro kv
    rfl
  simp [h]

theorem findContextTypeInfo_eq_find? (l : List XmlNode) :
    findContextTypeInfo l =
      (l.find? (fun g => g.name == "Context")).bind
        (fun g => allookup g.attributes "document") := by
  induction l with
  | nil => simp [findContextTypeInfo]
  | cons g rest ih =>
    by_cases h : g.name = "Context"
    · have hb : (g.name == "Context") = true := by simp [h]
      simp [findContextTypeInfo, List.find?, h, hb]
    · have hb : (g.name == "Context") = false := by simp [h]
      simp [findContextTypeInfo, List.find?, h, hb, ih]

/-- `transformer "IndicatorItem"` can only succeed when `Context` (a
dictionary with `@search`), `Content` (a dictionary with `_value` and
`@type`), `@condition` and `@id` are all present in the contents. -/
theorem transformer_ok_implies (contents : DDict) (r : String × DDict)
    (h : transformer "IndicatorItem" contents = Except.ok r) :
    (∃ cd, allookup contents "Context" = some (DVal.dict cd) ∧
      ∃ sv, allookup cd "@search" = some sv) ∧
    (∃ nd, allookup contents "Content" = some (DVal.dict nd) ∧
      (∃ a, allookup nd "_value" = some a) ∧
      (∃ b, allookup nd "@type" = some b)) ∧
    (∃ cv, allookup contents "@condition" = some cv) ∧
    (∃ iv, allookup contents "@id" = some iv) := by
  unfold transformer at h
  rw [if_neg (by decide : ¬("IndicatorItem" ≠ "IndicatorItem"))] at h
  cases h1 : allookup contents "Context" with
  | none => simp only [h1] at h; exact Except.noConfusion h
  | some cv1 =>
    cases cv1 with
    | str _ => simp only [h1] at h; exact Except.noConfusion h
    | dict cd =>
      simp only [h1] at h
      cases h2 : allookup cd "@search" with
      | none => simp only [h2] at h; exact Except.noConfusion h
      | some sv1 =>
        cases sv1 with
        | dict _ => simp only [h2] at h; exact Except.noConfusion h
        | str s =>
          simp only [h2] at h
          cases h3 : splitChar '/' s with
          | nil => simp only [h3] at h; exact Except.noConfusion h
          | cons x rest =>
            cases rest with
            | nil => simp only [h3] at h; exact Except.noConfusion h
            | cons y rest2 =>
              simp only [h3] at h
              cases h4 : allookup contents "Content" with
              | none => simp only [h4] at h; exact Except.noConfusion h
              | some nv1 =>
                cases nv1 with
                | str _ => simp only [h4] at h; exact Except.noConfusion h
                | dict nd =>
                  simp only [h4] at h
                  cases h5 : allookup nd "_value" with
                  | none => simp only [h5] at h; exact Except.noConfusion h
                  | some av =>
                    simp only [h5] at h
                    cases h6 : allookup nd "@type" with
                    | none => simp only [h6] at h; exact Except.noConfusion h
                    | some bv =>
                      simp only [h6] at h
                      cases h7 : allookup contents "@condition" with
                      | none => simp only [h7] at h; exact Except.noConfusion h
                      | some cv =>
                        simp only [h7] at h
                        cases h8 : allookup contents "@id" with
                        | none => simp only [h8] at h; exact Except.noConfusion h
                        | some iv =>
                          exact ⟨⟨cd, rfl, DVal.str s, h2⟩,
                            ⟨nd, rfl, ⟨av, h5⟩, ⟨bv, h6⟩⟩, ⟨cv, rfl⟩, ⟨iv, rfl⟩⟩

/-! ## Claims -/

/-- C7: for every element name different from `IndicatorItem` and every
contents dictionary, the transformer returns the pair unchanged — it is the
identity on all non-IndicatorItem elements. -/
theorem C7_transformer_identity (elt_name : String) (contents : DDict)
    (h : elt_name ≠ "IndicatorItem") :
    transformer elt_name contents = Except.ok (elt_name, contents) := by
  simp [transformer, h]

/-- Witness for C7 at a concrete non-IndicatorItem element. -/
theorem C7_transformer_identity_witness :
    "Indicator" ≠ "IndicatorItem" ∧
      transformer "Indicator" [("@id", DVal.str "X")] =
        Except.ok ("Indicator", [("@id", DVal.str "X")]) :=
  ⟨by decide, C7_transformer_identity "Indicator" [("@id", DVal.str "X")]
    (by decide)⟩

/-- C3 (counterexample): the key `"x@y"` contains the marker character without
bearing it as a prefix and is not one of idref/id/value_type, yet the
suppression predicate returns `True` — refuting "True if and only if the key is
one of idref/id/value_type or bears the internal-marker prefix". -/
theorem C3_counterexample :
    attr_ignore_predicate
        { node_id := "N001:L000:N000:A000", term := "T", attr := "x@y",
          value := "v" } = true ∧
      ("x@y").data.head? ≠ some '@' ∧
      "x@y" ∉ (["idref", "id", "value_type"] : List String) := by
  decide

/-- C3 (amended): the suppression predicate returns `True` exactly for keys
that contain the marker character `'@'` anywhere (Python substring containment,
not only as a leading marker) or are one of idref/id/value_type. -/
theorem C3_attr_ignore_iff (fact_dict : FactDict) :
    attr_ignore_predicate fact_dict = true ↔
      ('@' ∈ fact_dict.attr.data ∨
        fact_dict.attr ∈ (["idref", "id", "value_type"] : List String)) := by
  simp only [attr_ignore_predicate, containsChar]
  split_ifs with h1 h2
  · simp only [true_iff]
    exact Or.inl (by simpa [List.contains] using h1)
  · simp only [true_iff]
    exact Or.inr h2
  · simp only [false_iff]
    intro hor
    rcases hor with hmem | hmem
    · exact absurd (by simpa [List.contains] using hmem) h1
    · exact h2 hmem

/-- C4 (counterexample): a qualifying `IndicatorItem` whose first `Context`
child carries `document=""` — the attribute is present, but Python truthiness
makes the predicate return `True` instead of the (empty) attribute value. -/
theorem C4_counterexample :
    cybox_embedding_pred (XmlNode.mk "Indicator" [] [])
        (XmlNode.mk "IndicatorItem" [("id", "I1"), ("condition", "is")]
          [XmlNode.mk "Context" [("document", "")] []]) [] =
        EmbPred.yesEmbed ∧
      allookup (XmlNode.mk "Context" [("document", "")] []).attributes
          "document" = some "" ∧
      EmbPred.yesEmbed ≠ EmbPred.typed "" := by
  constructor
  · rfl
  · constructor
    · rfl
    · intro h
      cases h

/-- C4 (amended): the embedding classifier returns `False` whenever the child
is not named `IndicatorItem` or lacks an `id` attribute; for a qualifying
child it returns the value of the `document` attribute of the first `Context`
child when that attribute is present and non-empty, and `True` otherwise
(also when the attribute is present but empty). -/
theorem C4_embedding_pred_spec (parent child : XmlNode)
    (ns_mapping : List (String × String)) :
    cybox_embedding_pred parent child ns_mapping =
      (if child.name = "IndicatorItem" ∧ (allookup child.attributes "id").isSome
       then
        (match (child.children.find? (fun g => g.name == "Context")).bind
            (fun g => allookup g.attributes "document") with
         | some s => if s = "" then EmbPred.yesEmbed else EmbPred.typed s
         | none => EmbPred.yesEmbed)
       else EmbPred.noEmbed) := by
  unfold cybox_embedding_pred
  rw [extract_attributes_empty_tag, findContextTypeInfo_eq_find?]
  by_cases hname : child.name = "IndicatorItem"
  · by_cases hid : (allookup child.attributes "id").isSome
    · simp only [hname, hid, if_pos (And.intro hname hid)]
      cases hfind : (child.children.find? (fun g => g.name == "Context")).bind
          (fun g => allookup g.attributes "document") with
      | none => simp
      | some s =>
        by_cases hs : s = ""
        · simp [hs]
        · simp [hs]
    · simp [hname, hid]
  · simp [hname]

/-- C5 (counterexample): a fact whose attributes contain `idref` but carry no
`@embedded_type_info` marker — the extractor returns `True` yet leaves the
fact-construction arguments untouched (no `fact_dt_kind` is set), refuting
"derives the fact's data type from the previously attached embedded-type
marker ... and mutates the fact-construction arguments" for this case. -/
theorem C5_counterexample :
    datatype_extractor [("idref", "ref-1")] (fun _ => "NSU") [] = ([], true) ∧
      allookup ([] : Kargs) "fact_dt_kind" = none := by
  constructor
  · rfl
  · rfl

/-- C5 (amended): when `idref` is present the extractor returns `True`, but it
mutates the fact-construction arguments only if the embedded-type marker
`@embedded_type_info` is attached and non-empty (then it sets the name, the
default namespace and kind = reference type); when `idref` is absent and
`value_type` is present it sets the name and namespace and returns `True`;
otherwise it returns `False` and mutates nothing. -/
theorem C5_datatype_extractor_cases (attr_info : List (String × String))
    (nsm : Option String → String) (kargs : Kargs) :
    (∀ u s, allookup attr_info "idref" = some u →
        allookup attr_info "@embedded_type_info" = some s → s ≠ "" →
        datatype_extractor attr_info nsm kargs =
          (alset (alset (alset kargs "fact_dt_name" (KVal.s s))
            "fact_dt_namespace_uri" (KVal.s (nsm none)))
            "fact_dt_kind" (KVal.kind FactDTKind.REFERENCE), true)) ∧
    (∀ u, allookup attr_info "idref" = some u →
        (allookup attr_info "@embedded_type_info" = none ∨
          allookup attr_info "@embedded_type_info" = some "") →
        datatype_extractor attr_info nsm kargs = (kargs, true)) ∧
    (∀ vt, allookup attr_info "idref" = none →
        allookup attr_info "value_type" = some vt →
        datatype_extractor attr_info nsm kargs =
          (alset (alset kargs "fact_dt_name" (KVal.s vt))
            "fact_dt_namespace_uri" (KVal.s (nsm none)), true)) ∧
    (allookup attr_info "idref" = none →
        allookup attr_info "value_type" = none →
        datatype_extractor attr_info nsm kargs = (kargs, false)) := by
  refine ⟨?_, ?_, ?_, ?_⟩
  · intro u s h1 h2 h3
    simp [datatype_extractor, h1, h2, h3]
  · intro u h1 h2
    rcases h2 with h2 | h2
    · simp [datatype_extractor, h1, h2]
    · simp [datatype_extractor, h1, h2]
  · intro vt h1 h2
    simp [datatype_extractor, h1, h2]
  · intro h1 h2
    simp [datatype_extractor, h1, h2]

/-- Witness for C5 at a concrete fact carrying only a `value_type` attribute. -/
theorem C5_datatype_extractor_cases_witness :
    datatype_extractor [("value_type", "String")] (fun _ => "NSU") [] =
      (alset (alset [] "fact_dt_name" (KVal.s "String"))
        "fact_dt_namespace_uri" (KVal.s "NSU"), true) :=
  (C5_datatype_extractor_cases [("value_type", "String")] (fun _ => "NSU")
    []).2.2.1 "String" (by decide) (by decide)

/-- C6: the id/revision extractor returns `id = None` without an `id`
attribute and the attribute's value with one; `timestamp = None` without a
`last-modified` attribute; a parsed naive `last-modified` is interpreted in
UTC, an aware one is kept as parsed; and no error is raised for missing
attributes (the extractor is total in them). -/
theorem C6_id_and_revision_extractor_spec (parse : String → PDatetime)
    (xml_elt : XmlNode) :
    (allookup xml_elt.attributes "id" = none →
        (id_and_revision_extractor parse xml_elt).id = none) ∧
    (∀ v, allookup xml_elt.attributes "id" = some v →
        (id_and_revision_extractor parse xml_elt).id = some v) ∧
    (allookup xml_elt.attributes "last-modified" = none →
        (id_and_revision_extractor parse xml_elt).timestamp = none) ∧
    (∀ s, allookup xml_elt.attributes "last-modified" = some s →
        (parse s).tz = none →
        (id_and_revision_extractor parse xml_elt).timestamp =
          some { instant := (parse s).instant, tz := some "UTC" }) ∧
    (∀ s z, allookup xml_elt.attributes "last-modified" = some s →
        (parse s).tz = some z →
        (id_and_revision_extractor parse xml_elt).timestamp = some (parse s)) := by
  have hid : allookup (extract_attributes "@" xml_elt) "@id" =
      allookup xml_elt.attributes "id" :=
    allookup_extract_attributes "@" xml_elt "id"
  have hlm : allookup (extract_attributes "@" xml_elt) "@last-modified" =
      allookup xml_elt.attributes "last-modified" :=
    allookup_extract_attributes "@" xml_elt "last-modified"
  refine ⟨?_, ?_, ?_, ?_, ?_⟩
  · intro h
    simp [id_and_revision_extractor, hid, h]
  · intro v h
    simp [id_and_revision_extractor, hid, h]
  · intro h
    simp [id_and_revision_extractor, hlm, h]
  · intro s h htz
    simp [id_and_revision_extractor, hlm, h, tz_is_aware, make_aware_utc, htz]
  · intro s z h htz
    simp [id_and_revision_extractor, hlm, h, tz_is_aware, htz]

/-- Witness for C6 at a concrete element with a naive `last-modified`. -/
theorem C6_id_and_revision_extractor_spec_witness :
    (id_and_revision_extractor (fun _ => { instant := 7, tz := none })
        (XmlNode.mk "ioc" [("id", "I1"), ("last-modified", "2013-01-01T12:00:00")]
          [])).timestamp = some { instant := 7, tz := some "UTC" } :=
  (C6_id_and_revision_extractor_spec (fun _ => { instant := 7, tz := none })
      (XmlNode.mk "ioc" [("id", "I1"), ("last-modified", "2013-01-01T12:00:00")]
        [])).2.2.2.1 "2013-01-01T12:00:00" (by decide) (by decide)

/-- C9: for a fact whose attribute info contains `idref` and the
import-generated `@timestamp`, the reference handler rewrites the
fact-construction arguments so `value_iobject_id` holds the identifier of the
referenced object (uid from `idref`, namespace from the instance state) and
always returns `True`, never suppressing the fact. -/
theorem C9_reference_handler_spec (identifier_ns_uri : String)
    (attr_info : List (String × String)) (add_fact_kargs : Kargs)
    (uid ts : String)
    (h1 : allookup attr_info "idref" = some uid)
    (h2 : allookup attr_info "@timestamp" = some ts) :
    reference_handler identifier_ns_uri attr_info add_fact_kargs =
      Except.ok (alset add_fact_kargs "value_iobject_id"
        (KVal.ident { uid := uid, namespace_uri := identifier_ns_uri }), true) ∧
    allookup (alset add_fact_kargs "value_iobject_id"
        (KVal.ident { uid := uid, namespace_uri := identifier_ns_uri }))
        "value_iobject_id" =
      some (KVal.ident { uid := uid, namespace_uri := identifier_ns_uri }) := by
  constructor
  · simp only [reference_handler, h1, h2]
    rfl
  · exact allookup_alset_self _ _ _

/-- Witness for C9 at a concrete referencing fact. -/
theorem C9_reference_handler_spec_witness :
    reference_handler "NS" [("idref", "U1"), ("@timestamp", "T1")] [] =
      Except.ok (alset [] "value_iobject_id"
        (KVal.ident { uid := "U1", namespace_uri := "NS" }), true) :=
  (C9_reference_handler_spec "NS" [("idref", "U1"), ("@timestamp", "T1")] []
    "U1" "T1" (by decide) (by decide)).1

/-- C2 (counterexample): an import whose element carries the extracted
timestamp instant 5 while "now" is instant 10 — every persisted record gets
timestamp 5, but the latest of the two is 10, refuting "the shared timestamp
equals the latest of the extracted timestamp and the current time". -/
theorem C2_counterexample :
    (xml_import ⟨⟨⟨some "X", some ⟨5, some "UTC"⟩⟩, "ioc", []⟩, []⟩ none
        ⟨10, some "UTC"⟩).calls.map (fun c => c.timestamp) =
      [⟨5, some "UTC"⟩] ∧
    latest ⟨5, some "UTC"⟩ ⟨10, some "UTC"⟩ = ⟨10, some "UTC"⟩ ∧
    (⟨5, some "UTC"⟩ : PDatetime) ≠ ⟨10, some "UTC"⟩ := by
  refine ⟨rfl, rfl, ?_⟩
  decide

/-- C2 (amended): every `create_iobject` call of one `xml_import` iteration
carries one shared timestamp, and that timestamp equals the timestamp
extracted from the last element placed on the pending stack (the last embedded
object if any, else the top-level element) when one is present, and the
current time otherwise — no maximum with "now" is taken; the loop makes one
call for the top-level element and one per embedded element. -/
theorem C2_shared_timestamp (res : ImportResult) (ns : Option String)
    (now : PDatetime) :
    (∀ c ∈ (xml_import res ns now).calls,
        c.timestamp =
          ((res.embedded_objects.getLastD res.top).id_and_rev_info.timestamp).getD
            now) ∧
    (xml_import res ns now).calls.length = res.embedded_objects.length + 1 := by
  constructor
  · intro c hc
    rw [List.getLastD_eq_getLast?]
    simp only [xml_import, List.mem_map, List.mem_cons] at hc
    obtain ⟨obj, hobj, rfl⟩ := hc
    cases hl : res.embedded_objects.getLast? with
    | none =>
      cases ht : res.top.id_and_rev_info.timestamp with
      | none => simp [xml_import, hl, ht]
      | some t => simp [xml_import, hl, ht]
    | some e =>
      cases ht : e.id_and_rev_info.timestamp with
      | none => simp [xml_import, hl, ht]
      | some t => simp [xml_import, hl, ht]
  · simp [xml_import]

/-- Witness for C2 at a concrete one-element import. -/
theorem C2_shared_timestamp_witness :
    (⟨"ioc", some "X", none, ⟨5, some "UTC"⟩, ⟨10, some "UTC"⟩⟩ :
        CreateCall).timestamp =
      ((([] : List ImportedObj).getLastD
          ⟨⟨some "X", some ⟨5, some "UTC"⟩⟩, "ioc", []⟩).id_and_rev_info.timestamp).getD
        ⟨10, some "UTC"⟩ :=
  (C2_shared_timestamp ⟨⟨⟨some "X", some ⟨5, some "UTC"⟩⟩, "ioc", []⟩, []⟩ none
    ⟨10, some "UTC"⟩).1 _ (by decide)

/-- C10: with `identifier_ns_uri = None`, the per-object creation calls pass
the raw `None` as identifier namespace while the instance state used by the
reference handler stays at the DINGOS default, so the handler resolves and
creates referenced objects under the default namespace — a namespace the
creation calls never use. -/
theorem C10_namespace_mismatch (res : ImportResult) (now : PDatetime)
    (attr_info : List (String × String)) (kargs : Kargs) (uid ts : String)
    (h1 : allookup attr_info "idref" = some uid)
    (h2 : allookup attr_info "@timestamp" = some ts) :
    (∀ c ∈ (xml_import res none now).calls, c.identifier_ns_uri = none) ∧
    (xml_import res none now).self_identifier_ns_uri =
      DINGOS_DEFAULT_ID_NAMESPACE_URI ∧
    reference_handler (xml_import res none now).self_identifier_ns_uri
        attr_info kargs =
      Except.ok (alset kargs "value_iobject_id"
        (KVal.ident ⟨uid, DINGOS_DEFAULT_ID_NAMESPACE_URI⟩), true) ∧
    (∀ c ∈ (xml_import res none now).calls,
        c.identifier_ns_uri ≠ some DINGOS_DEFAULT_ID_NAMESPACE_URI) := by
  refine ⟨?_, rfl, ?_, ?_⟩
  · intro c hc
    simp only [xml_import, List.mem_map, List.mem_cons] at hc
    obtain ⟨obj, hobj, rfl⟩ := hc
    rfl
  · simp only [reference_handler, h1, h2]
    rfl
  · intro c hc
    simp only [xml_import, List.mem_map, List.mem_cons] at hc
    obtain ⟨obj, hobj, rfl⟩ := hc
    simp

/-- Witness for C10 at a concrete import and referencing fact. -/
theorem C10_namespace_mismatch_witness :
    reference_handler
        (xml_import ⟨⟨⟨some "X", none⟩, "ioc", []⟩, []⟩ none
          ⟨10, some "UTC"⟩).self_identifier_ns_uri
        [("idref", "U1"), ("@timestamp", "T1")] [] =
      Except.ok (alset [] "value_iobject_id"
        (KVal.ident ⟨"U1", DINGOS_DEFAULT_ID_NAMESPACE_URI⟩), true) :=
  (C10_namespace_mismatch ⟨⟨⟨some "X", none⟩, "ioc", []⟩, []⟩
    ⟨10, some "UTC"⟩ [("idref", "U1"), ("@timestamp", "T1")] [] "U1" "T1"
    (by decide) (by decide)).2.2.1

/-- C8: for every `IndicatorItem` whose contents lack `Context`, `Content`,
or any expected sub-attribute (`Context.@search`, `Content._value`,
`Content.@type`, `@condition`, `@id`), the transformer propagates a lookup
failure and never returns a result — there is no defensive recovery. -/
theorem C8_transformer_malformed (contents : DDict)
    (h : allookup contents "Context" = none ∨
      (∀ cd, allookup contents "Context" = some (DVal.dict cd) →
        allookup cd "@search" = none) ∨
      allookup contents "Content" = none ∨
      (∀ nd, allookup contents "Content" = some (DVal.dict nd) →
        allookup nd "_value" = none ∨ allookup nd "@type" = none) ∨
      allookup contents "@condition" = none ∨
      allookup contents "@id" = none) :
    ∃ e, transformer "IndicatorItem" contents = Except.error e := by
  cases hres : transformer "IndicatorItem" contents with
  | error e => exact ⟨e, rfl⟩
  | ok r =>
    exfalso
    obtain ⟨⟨cd, hcd, sv, hsv⟩, ⟨nd, hnd, ⟨av, hav⟩, ⟨bv, hbv⟩⟩,
      ⟨cv, hcv⟩, ⟨iv, hiv⟩⟩ := transformer_ok_implies contents r hres
    rcases h with h | h | h | h | h | h
    · rw [h] at hcd
      exact Option.noConfusion hcd
    · rw [h cd hcd] at hsv
      exact Option.noConfusion hsv
    · rw [h] at hnd
      exact Option.noConfusion hnd
    · rcases h nd hnd with h' | h'
      · rw [h'] at hav
        exact Option.noConfusion hav
      · rw [h'] at hbv
        exact Option.noConfusion hbv
    · rw [h] at hcv
      exact Option.noConfusion hcv
    · rw [h] at hiv
      exact Option.noConfusion hiv

/-- Witness for C8 at the empty contents dictionary (every key missing). -/
theorem C8_transformer_malformed_witness :
    ∃ e, transformer "IndicatorItem" [] = Except.error e :=
  C8_transformer_malformed [] (Or.inl rfl)

/-- C1 (counterexample): a search path whose second segment is the literal
`@id` — `set_dict` then overwrites the `@id` binding the transformer wrote
first, so the returned record's top-level `@id` no longer equals the item's
id, refuting the claim for this input. -/
theorem C1_counterexample :
    transformer "IndicatorItem"
        [("Context", DVal.dict [("@search", DVal.str "X/@id/C/D")]),
         ("Content", DVal.dict [("_value", DVal.str "v"),
           ("@type", DVal.str "t")]),
         ("@condition", DVal.str "c"), ("@id", DVal.str "i")] =
      Except.ok ("X",
        [("@id", DVal.dict [("C", DVal.dict [("D", DVal.dict
          [("@value_type", DVal.str "t"), ("@condition", DVal.str "c"),
           ("_value", DVal.str "v")])])])]) ∧
    allookup
        [("@id", DVal.dict [("C", DVal.dict [("D", DVal.dict
          [("@value_type", DVal.str "t"), ("@condition", DVal.str "c"),
           ("_value", DVal.str "v")])])])] "@id" ≠ some (DVal.str "i") := by
  constructor
  · rfl
  · intro hcontra
    simp [allookup] at hcontra

/-- C1 (amended): for an `IndicatorItem` whose `Context.@search` splits into
the four segments `A/B/C/D` with `B` different from the literal key `@id`,
the transformer returns element name `A` and a record whose nested path
`B → C → D` holds the leaf `{@value_type, @condition, _value}` and whose
top-level `@id` equals the item's id (for `B = "@id"` the leaf insertion
overwrites the id binding). -/
theorem C1_transformer_path (A B C D s : String) (contents ctxD cntD : DDict)
    (v t c i : DVal)
    (hctx : allookup contents "Context" = some (DVal.dict ctxD))
    (hsearch : allookup ctxD "@search" = some (DVal.str s))
    (hsplit : splitChar '/' s = [A, B, C, D])
    (hcnt : allookup contents "Content" = some (DVal.dict cntD))
    (hv : allookup cntD "_value" = some v)
    (ht : allookup cntD "@type" = some t)
    (hc : allookup contents "@condition" = some c)
    (hi : allookup contents "@id" = some i)
    (hB : B ≠ "@id") :
    transformer "IndicatorItem" contents =
      Except.ok (A, [("@id", i), (B, DVal.dict [(C, DVal.dict [(D,
        DVal.dict [("@value_type", t), ("@condition", c),
          ("_value", v)])])])]) ∧
    getPath [("@id", i), (B, DVal.dict [(C, DVal.dict [(D,
        DVal.dict [("@value_type", t), ("@condition", c),
          ("_value", v)])])])] [B, C, D] =
      some (DVal.dict [("@value_type", t), ("@condition", c),
        ("_value", v)]) ∧
    allookup [("@id", i), (B, DVal.dict [(C, DVal.dict [(D,
        DVal.dict [("@value_type", t), ("@condition", c),
          ("_value", v)])])])] "@id" = some i := by
  have hB' : ("@id" : String) ≠ B := fun hh => hB hh.symm
  refine ⟨?_, ?_, ?_⟩
  · simp [transformer, hctx, hsearch, hsplit, hcnt, hv, ht, hc, hi,
      set_dict, alset, allookup, hB']
  · simp [getPath, allookup, hB']
  · simp [allookup]

/-- Witness for C1 at the spec's end-to-end example (shortened to a
four-segment search path). -/
theorem C1_transformer_path_witness :
    transformer "IndicatorItem"
        [("Context", DVal.dict [("@search",
           DVal.str "FileItem/PEInfo/Sections/Name")]),
         ("Content", DVal.dict [("_value", DVal.str ".stub"),
           ("@type", DVal.str "string")]),
         ("@condition", DVal.str "contains"), ("@id", DVal.str "X")] =
      Except.ok ("FileItem",
        [("@id", DVal.str "X"),
         ("PEInfo", DVal.dict [("Sections", DVal.dict [("Name", DVal.dict
           [("@value_type", DVal.str "string"),
            ("@condition", DVal.str "contains"),
            ("_value", DVal.str ".stub")])])])]) :=
  (C1_transformer_path "FileItem" "PEInfo" "Sections" "Name"
    "FileItem/PEInfo/Sections/Name"
    [("Context", DVal.dict [("@search",
       DVal.str "FileItem/PEInfo/Sections/Name")]),
     ("Content", DVal.dict [("_value", DVal.str ".stub"),
       ("@type", DVal.str "string")]),
     ("@condition", DVal.str "contains"), ("@id", DVal.str "X")]
    [("@search", DVal.str "FileItem/PEInfo/Sections/Name")]
    [("_value", DVal.str ".stub"), ("@type", DVal.str "string")]
    (DVal.str ".stub") (DVal.str "string") (DVal.str "contains")
    (DVal.str "X") rfl rfl rfl rfl rfl rfl rfl rfl (by decide)).1

end OpenIOC
